import Mathlib

/-!
Verification development for the vane_web3 node (sender/receiver transaction
safety layer).  The Rust sources under `node/src/lib.rs` and
`node/src/tx_processing.rs` are shallowly embedded below: stateful handlers
become pure functions returning an outcome plus an explicit list of observable
effects (RPC emissions, database appends, p2p commands, log warnings), and the
external libraries the node calls (sp_core cryptography, libp2p parsing, the
chain JSON-RPC clients) are abstracted as an `Externals` record of functions so
that every definition stays executable and each theorem can be evaluated on
concrete instantiations.
-/

namespace Vane

/-- Byte strings are modelled as lists of naturals (each intended < 256). -/
abbrev Bytes := List Nat

/-- Modelled from the spec: the supported networks of §3
(`network — one of {Ethereum, Bnb, Solana, Polkadot}`); the defining enum lives
in the `primitives` crate, which is not under `src/`. -/
inductive ChainSupported
  | Ethereum
  | Bnb
  | Solana
  | Polkadot
  deriving DecidableEq

/-- Modelled from the spec: the status tags of §3 / §4.1; the defining enum
lives in the `primitives` crate, which is not under `src/`. -/
inductive TxStatus
  | Genesis
  | ReceiverConfirmation
  | RecvAddrConfirmed
  | RecvAddrFailed
  | NetConfirmed
  | SenderConfirmed
  | SenderConfirmationFailed
  | TxSubmissionPassed
  | TxSubmissionFailed
  deriving DecidableEq

/-- Modelled from the spec: the `TxStateMachine` record of §3 (field list and
semantic types); the defining struct lives in the `primitives` crate, which is
not under `src/`.  `multi_id` is the 32-byte binding hash, `amount` the u128
value, the three payload fields are optional byte strings, and the two request
ids are optional 64-bit identifiers. -/
structure TxStateMachine where
  sender_address : String
  receiver_address : String
  multi_id : Bytes
  network : ChainSupported
  amount : Nat
  call_payload : Option Bytes
  signed_call_payload : Option Bytes
  recv_signature : Option Bytes
  status : TxStatus
  inbound_req_id : Option Nat
  outbound_req_id : Option Nat
  tx_hash : Option Bytes
  deriving DecidableEq

/-- Modelled from the spec: the persisted historical transaction record of §3,
`{tx_hash: bytes, amount: u128, network: enum, success: bool}`; the defining
struct `DbTxStateMachine` lives in the `primitives` crate, not under `src/`. -/
structure DbTxStateMachine where
  tx_hash : Bytes
  amount : Nat
  network : ChainSupported
  success : Bool
  deriving DecidableEq

/-- Outcome of a fallible Rust computation: a returned value, a returned
`Err` (anyhow error message), or an unwound panic (`todo!` / `expect` /
documented library panics).  A panic is not catchable by `if let Ok(..)` style
matching, so it is kept distinct from `err`. -/
inductive POut (α : Type)
  | ok (a : α)
  | err (msg : String)
  | panicked (msg : String)
  deriving DecidableEq

/-- Observable side effects of the orchestrator handlers: sends on the
orchestrator→RPC channel, appends to the persisted history, local peer-store
writes, p2p commands, the invocation of chain submission (`submit_tx`), and
the operational warning log of the Genesis handler. -/
inductive Effect
  | rpcSend (tx : TxStateMachine)
  | dbRecordFailedTx (r : DbTxStateMachine)
  | dbRecordSuccessTx (r : DbTxStateMachine)
  | dbSavePeer (peerId : String) (multiAddr : String)
  | p2pDial (multiAddr : String) (peerId : String)
  | p2pSendRequest (tx : TxStateMachine) (peerId : String) (multiAddr : String)
  | chainSubmit (tx : TxStateMachine)
  | logWarnPeerNotFound
  deriving DecidableEq

/-- External collaborators of the embedded code, abstracted as functions: the
sp_core cryptographic primitives (whose internals are library code, called by
`validate_receiver_sender_address` and `validate_multi_id`), the std
`DefaultHasher` 64-bit hash, the chain JSON-RPC clients, and the
libp2p `Multiaddr` / `PeerId` parsers used by the Genesis handler. -/
structure Externals where
  ecdsaPubFromStr : String → Option Bytes
  keccak_256 : Bytes → Bytes
  ecdsaSigFromSlice : Bytes → Option Bytes
  ecdsaVerify : Bytes → Bytes → Bytes → Bool
  ecdsaRecover : Bytes → Bytes → Option Bytes
  edPubFromStr : String → Option Bytes
  edSigFromSlice : Bytes → Option Bytes
  edVerify : Bytes → Bytes → Bytes → Bool
  blake2_256 : Bytes → Bytes
  defaultHash64 : Nat → Nat
  ethSendRawTransaction : Bytes → Except String Bytes
  bnbSendRawTransaction : Bytes → Except String Bytes
  parseMultiaddr : String → Option String
  parsePeerId : String → Option String
  dial : String → String → Except String Unit
  sendRequest : String → String → Except String Unit

/-- Bytes of a Rust `&str` via `.as_bytes()`: modelled as the character
codepoints, which agrees with UTF-8 on the ASCII strings used throughout. -/
def strBytes (s : String) : Bytes :=
  s.data.map Char.toNat

/-- Modelled from the spec: `recv_confirmation_passed` of the `primitives`
crate (not under `src/`) — "On success, advance to RecvAddrConfirmed" (§4.2). -/
def TxStateMachine.recv_confirmation_passed (tx : TxStateMachine) : TxStateMachine :=
  { tx with status := TxStatus.RecvAddrConfirmed }

/-- Modelled from the spec: `recv_confirmation_failed` of the `primitives`
crate (not under `src/`) — "on failure, advance to RecvAddrFailed" (§4.2). -/
def TxStateMachine.recv_confirmation_failed (tx : TxStateMachine) : TxStateMachine :=
  { tx with status := TxStatus.RecvAddrFailed }

/-- Modelled from the spec: `sender_confirmation_failed` of the `primitives`
crate (not under `src/`) — "On failure, advance to SenderConfirmationFailed"
(§4.2.3 Branch A). -/
def TxStateMachine.sender_confirmation_failed (tx : TxStateMachine) : TxStateMachine :=
  { tx with status := TxStatus.SenderConfirmationFailed }

/-- Modelled from the spec: `tx_submission_passed` of the `primitives` crate
(not under `src/`) — "On success, set `tx_hash`, advance to TxSubmissionPassed"
(§4.2.3 Branch A). -/
def TxStateMachine.tx_submission_passed (tx : TxStateMachine) (h : Bytes) : TxStateMachine :=
  { tx with tx_hash := some h, status := TxStatus.TxSubmissionPassed }

/-- Modelled from the spec: `tx_submission_failed` of the `primitives` crate
(not under `src/`) — "On failure, advance to TxSubmissionFailed with the
chain-reported error attached" (§4.2.3); the attached message is carried by a
field outside the §3 field list and is not modelled. -/
def TxStateMachine.tx_submission_failed (tx : TxStateMachine) (_msg : String) : TxStateMachine :=
  { tx with status := TxStatus.TxSubmissionFailed }

/-- Embedding of `TxProcessingWorker::validate_receiver_sender_address`
(`node/src/tx_processing.rs` lines 83–162).  Signature and message are chosen
by `who`; the claimed public key is parsed from `tx.receiver_address` in both
roles (as the source does); the Polkadot arm is the `todo!()` panic. -/
def validate_receiver_sender_address (o : Externals) (tx : TxStateMachine)
    (who : String) : POut Unit :=
  let step : POut (ChainSupported × Bytes × String) :=
    if who = ("Receiver") then
      match tx.recv_signature with
      | none => POut.err ("receiver didnt signed")
      | some s => POut.ok (tx.network, s, tx.receiver_address)
    else
      match tx.signed_call_payload with
      | none => POut.err ("original sender didnt signed")
      | some s => POut.ok (tx.network, s, tx.sender_address)
  match step with
  | POut.err m => POut.err m
  | POut.panicked m => POut.panicked m
  | POut.ok (network, signature, msg) =>
    match network with
    | ChainSupported.Polkadot => POut.panicked ("not yet implemented")
    | ChainSupported.Ethereum | ChainSupported.Bnb =>
      match o.ecdsaPubFromStr tx.receiver_address with
      | none => POut.err ("failed to convert ecdsa recv addr bytes")
      | some ec_receiver_public =>
        let hashed_msg := o.keccak_256 (strBytes msg)
        match o.ecdsaSigFromSlice signature with
        | none => POut.err ("failed to convert Ecdsa_signature")
        | some sig =>
          if o.ecdsaVerify sig hashed_msg ec_receiver_public then
            match o.ecdsaRecover sig hashed_msg with
            | none => POut.err ("cannot recover addr")
            | some addr =>
              if addr = ec_receiver_public then POut.ok ()
              else POut.err ("addr recovery equality failed hence recv failed")
          else POut.err ("ec signature verification failed hence recv failed")
    | ChainSupported.Solana =>
      match o.edPubFromStr tx.receiver_address with
      | none => POut.err ("failed to convert ed25519 recv addr bytes")
      | some ed_receiver_public =>
        match o.edSigFromSlice signature with
        | none => POut.err ("failed to convert ed25519_signature")
        | some sig =>
          if o.edVerify sig (strBytes msg) ed_receiver_public then POut.ok ()
          else POut.err ("ed25519 signature verification failed hence recv failed")

/-- Embedding of `TxProcessingWorker::validate_multi_id`
(`node/src/tx_processing.rs` lines 165–173): Blake2-256 of the concatenated
sender and receiver address bytes, compared with the stored `multi_id`. -/
def validate_multi_id (o : Externals) (txn : TxStateMachine) : Bool :=
  let sender_recv := strBytes txn.sender_address ++ strBytes txn.receiver_address
  decide (o.blake2_256 sender_recv = txn.multi_id)

/-- Big-endian minimal byte representation of a natural, with a fixed recursion
bound of 20 bytes — every value the node encodes fits in a u128 (16 bytes). -/
def natBEAux : Nat → Nat → Bytes
  | 0, _ => []
  | fuel + 1, n => if n = 0 then [] else natBEAux fuel (n / 256) ++ [n % 256]

/-- Big-endian minimal bytes of a natural (empty for zero, as in RLP). -/
def natBytesBE (n : Nat) : Bytes := natBEAux 20 n

/-- Value of a big-endian byte string. -/
def beToNat (l : Bytes) : Nat := List.foldl (fun a b => a * 256 + b) 0 l

/-- RLP encoding of a byte string. -/
def rlpBytes : Bytes → Bytes
  | [x] => if x < 128 then [x] else [129, x]
  | b =>
    if b.length ≤ 55 then (128 + b.length) :: b
    else
      let lenB := natBytesBE b.length
      ((183 + lenB.length) :: lenB) ++ b

/-- RLP encoding of a natural (big-endian minimal bytes). -/
def rlpNat (n : Nat) : Bytes := rlpBytes (natBytesBE n)

/-- RLP list header prepended to an already-encoded payload. -/
def rlpListPayload (payload : Bytes) : Bytes :=
  if payload.length ≤ 55 then (192 + payload.length) :: payload
  else
    let lenB := natBytesBE payload.length
    ((247 + lenB.length) :: lenB) ++ payload

/-- The unsigned EIP-7702 envelope, mirroring alloy's `TxEip7702` fields as
used by the node (access list and authorization list are always empty in the
requests the node builds, so only their empty-list encodings appear). -/
structure TxEip7702 where
  chain_id : Nat
  nonce : Nat
  gas_limit : Nat
  max_fee_per_gas : Nat
  max_priority_fee_per_gas : Nat
  to_addr : Bytes
  value : Nat
  input : Bytes
  deriving DecidableEq

/-- RLP field payload of an unsigned EIP-7702 envelope in the EIP-7702 order:
chain_id, nonce, max_priority_fee_per_gas, max_fee_per_gas, gas_limit,
destination, value, data, access_list, authorization_list.  The two trailing
`[192]` items are the empty access and authorization lists. -/
def eip7702Fields (t : TxEip7702) : Bytes :=
  rlpNat t.chain_id ++ rlpNat t.nonce ++ rlpNat t.max_priority_fee_per_gas ++
  rlpNat t.max_fee_per_gas ++ rlpNat t.gas_limit ++ rlpBytes t.to_addr ++
  rlpNat t.value ++ rlpBytes t.input ++ [192] ++ [192]

/-- RLP encoding of an unsigned EIP-7702 envelope, as produced by alloy's
`Encodable for TxEip7702` (called via `.encode(&mut encoded_tx)`). -/
def rlpEncodeEip7702 (t : TxEip7702) : Bytes :=
  rlpListPayload (eip7702Fields t)

/-- Split off `n` leading bytes, failing when fewer are available. -/
def takeN (n : Nat) (l : Bytes) : Option (Bytes × Bytes) :=
  if n ≤ l.length then some (l.take n, l.drop n) else none

/-- RLP decoder for one byte-string item; returns the item and the rest. -/
def rlpDecBytes : Bytes → Option (Bytes × Bytes)
  | [] => none
  | x :: rest =>
    if x < 128 then some ([x], rest)
    else if x ≤ 183 then takeN (x - 128) rest
    else if x ≤ 191 then
      match takeN (x - 183) rest with
      | some (lenB, r2) => takeN (beToNat lenB) r2
      | none => none
    else none

/-- RLP decoder for one natural-number item. -/
def rlpDecNat (l : Bytes) : Option (Nat × Bytes) :=
  (rlpDecBytes l).map (fun p => (beToNat p.1, p.2))

/-- Decoder for the field payload of an unsigned EIP-7702 envelope; the empty
access and authorization lists must be present and the payload exhausted. -/
def decodeEip7702Fields (payload : Bytes) : Option TxEip7702 := do
  let (chain_id, r1) ← rlpDecNat payload
  let (nonce, r2) ← rlpDecNat r1
  let (max_priority_fee_per_gas, r3) ← rlpDecNat r2
  let (max_fee_per_gas, r4) ← rlpDecNat r3
  let (gas_limit, r5) ← rlpDecNat r4
  let (to_addr, r6) ← rlpDecBytes r5
  let (value, r7) ← rlpDecNat r6
  let (input, r8) ← rlpDecBytes r7
  match r8 with
  | [192, 192] =>
    some { chain_id := chain_id, nonce := nonce, gas_limit := gas_limit,
           max_fee_per_gas := max_fee_per_gas,
           max_priority_fee_per_gas := max_priority_fee_per_gas,
           to_addr := to_addr, value := value, input := input }
  | _ => none

/-- Decoder mirroring alloy's `TxEip7702::decode` on the bytes the node stores
in `call_payload`: an RLP list header followed by the fields; trailing bytes
after the list are ignored, as the Rust decoder leaves them in the buffer. -/
def rlpDecodeEip7702 (l : Bytes) : Option TxEip7702 :=
  match l with
  | [] => none
  | x :: rest =>
    if x < 192 then none
    else if x ≤ 247 then
      match takeN (x - 192) rest with
      | some (payload, _) => decodeEip7702Fields payload
      | none => none
    else
      match takeN (x - 247) rest with
      | some (lenB, r2) =>
        match takeN (beToNat lenB) r2 with
        | some (payload, _) => decodeEip7702Fields payload
        | none => none
      | none => none

/-- Transaction type chosen by alloy's `TransactionRequest::preferred_type`:
EIP-7702 only when an authorization list is present, EIP-4844 for blob fields,
legacy/2930 when a gas price is set, and EIP-1559 otherwise. -/
inductive TxType
  | legacy
  | eip2930
  | eip4844
  | eip1559
  | eip7702
  deriving DecidableEq

/-- The subset of alloy's `TransactionRequest` the node touches; all fields the
node never sets keep their `None` / absent defaults. -/
structure TransactionRequest where
  to_addr : Option Bytes := none
  value : Option Nat := none
  chain_id : Option Nat := none
  nonce : Option Nat := none
  gas : Option Nat := none
  gas_price : Option Nat := none
  max_fee_per_gas : Option Nat := none
  max_priority_fee_per_gas : Option Nat := none
  input : Bytes := []
  has_access_list : Bool := false
  has_blob_fields : Bool := false
  has_authorization_list : Bool := false
  deriving DecidableEq

/-- alloy's `TransactionRequest::preferred_type`. -/
def TransactionRequest.preferred_type (r : TransactionRequest) : TxType :=
  if r.has_authorization_list then TxType.eip7702
  else if r.has_blob_fields then TxType.eip4844
  else if r.gas_price.isSome then
    (if r.has_access_list then TxType.eip2930 else TxType.legacy)
  else TxType.eip1559

/-- alloy's `TypedTransaction`, collapsed to the only distinction the node
observes through `.eip7702()`: the EIP-7702 variant versus any other. -/
inductive TypedTransaction
  | nonEip7702
  | eip7702Tx (t : TxEip7702)
  deriving DecidableEq

/-- alloy's `TypedTransaction::eip7702` accessor: `Some` only on the EIP-7702
variant. -/
def TypedTransaction.eip7702 : TypedTransaction → Option TxEip7702
  | TypedTransaction.nonEip7702 => none
  | TypedTransaction.eip7702Tx t => some t

/-- Field names alloy reports missing for the preferred type; `build_unsigned`
refuses to build while any are absent (alloy fills no defaults for nonce, gas
limit or fee fields). -/
def TransactionRequest.missing_keys (r : TransactionRequest) : List String :=
  let base :=
    (if r.nonce.isNone then ["nonce"] else []) ++
    (if r.gas.isNone then ["gas_limit"] else [])
  match r.preferred_type with
  | TxType.legacy => base ++ (if r.gas_price.isNone then ["gas_price"] else [])
  | TxType.eip2930 => base ++ (if r.gas_price.isNone then ["gas_price"] else [])
  | _ =>
    base ++
    (if r.max_fee_per_gas.isNone then ["max_fee_per_gas"] else []) ++
    (if r.max_priority_fee_per_gas.isNone then ["max_priority_fee_per_gas"] else [])

/-- alloy's `TransactionRequest::build_unsigned`: errors whenever required keys
for the preferred type are missing, and otherwise yields the typed transaction
of that preferred type (an EIP-7702 variant only when an authorization list was
supplied). -/
def build_unsigned (r : TransactionRequest) : Except (List String) TypedTransaction :=
  if r.missing_keys ≠ [] then Except.error r.missing_keys
  else
    match r.preferred_type with
    | TxType.eip7702 =>
      Except.ok (TypedTransaction.eip7702Tx
        { chain_id := r.chain_id.getD 1, nonce := r.nonce.getD 0,
          gas_limit := r.gas.getD 0, max_fee_per_gas := r.max_fee_per_gas.getD 0,
          max_priority_fee_per_gas := r.max_priority_fee_per_gas.getD 0,
          to_addr := r.to_addr.getD [], value := r.value.getD 0, input := r.input })
    | _ => Except.ok TypedTransaction.nonEip7702

/-- alloy's `Address::from_slice`, which panics unless given exactly 20
bytes (its documented behaviour); the node feeds it the raw UTF-8 bytes of
`receiver_address`. -/
def addressFromSlice (l : Bytes) : POut Bytes :=
  if l.length = 20 then POut.ok l
  else POut.panicked ("Address::from_slice called with slice of wrong length")

/-- Embedding of `TxProcessingWorker::create_tx`
(`node/src/tx_processing.rs` lines 181–260): Polkadot and Solana arms are the
`todo!()` panics; Ethereum and Bnb build a `TransactionRequest` carrying only
`to` and `value` (plus `chain_id = 56` for Bnb), call `build_unsigned`, demand
the EIP-7702 variant, RLP-encode it, and store it in `call_payload`. -/
def create_tx (tx : TxStateMachine) : POut TxStateMachine :=
  match tx.network with
  | ChainSupported.Polkadot => POut.panicked ("not yet implemented")
  | ChainSupported.Solana => POut.panicked ("not yet implemented")
  | ChainSupported.Ethereum =>
    match addressFromSlice (strBytes tx.receiver_address) with
    | POut.err m => POut.err m
    | POut.panicked m => POut.panicked m
    | POut.ok to_address =>
      let req : TransactionRequest :=
        { to_addr := some to_address, value := some tx.amount }
      match build_unsigned req with
      | Except.error _ => POut.err ("cannot build unsigned tx to be signed by EOA")
      | Except.ok typed =>
        match typed.eip7702 with
        | none => POut.err ("failed to convert to EIP 7702")
        | some t => POut.ok { tx with call_payload := some (rlpEncodeEip7702 t) }
  | ChainSupported.Bnb =>
    match addressFromSlice (strBytes tx.receiver_address) with
    | POut.err m => POut.err m
    | POut.panicked m => POut.panicked m
    | POut.ok to_address =>
      let req : TransactionRequest :=
        { to_addr := some to_address, value := some tx.amount, chain_id := some 56 }
      match build_unsigned req with
      | Except.error _ => POut.err ("cannot build unsigned tx to be signed by EOA")
      | Except.ok typed =>
        match typed.eip7702 with
        | none => POut.err ("failed to convert to EIP 7702")
        | some t => POut.ok { tx with call_payload := some (rlpEncodeEip7702 t) }

/-- Model of alloy's `encode_with_signature` for an EIP-7702 envelope: the
field payload extended with the 65-byte signature item.  Only the fact that
these bytes are handed to `sendRawTransaction` matters to the claims, not the
exact external byte layout. -/
def encode_with_signature (t : TxEip7702) (sig : Bytes) : Bytes :=
  rlpListPayload (eip7702Fields t ++ rlpBytes sig)

/-- Embedding of `TxProcessingWorker::submit_tx`
(`node/src/tx_processing.rs` lines 263–383): Polkadot and Solana arms are the
`todo!()` panics; Ethereum and Bnb require the signature and the payload to be
present, decode the payload as an EIP-7702 envelope, convert the signature
(65 bytes, else error), re-encode with the signature, submit through the
chain client, and convert the returned hash into a 32-byte array. -/
def submit_tx (o : Externals) (tx : TxStateMachine) : POut Bytes :=
  match tx.network with
  | ChainSupported.Polkadot => POut.panicked ("not yet implemented")
  | ChainSupported.Solana => POut.panicked ("not yet implemented")
  | ChainSupported.Ethereum =>
    match tx.signed_call_payload with
    | none => POut.err ("sender did not signed the tx payload")
    | some signature =>
      match tx.call_payload with
      | none => POut.err ("call payload not found")
      | some tx_payload =>
        match rlpDecodeEip7702 tx_payload with
        | none => POut.err ("failed to decode eth EIP7702 tx payload")
        | some decoded_tx =>
          if signature.length = 65 then
            match o.ethSendRawTransaction (encode_with_signature decoded_tx signature) with
            | Except.error _ => POut.err ("failed to submit eth raw tx")
            | Except.ok receipt =>
              if receipt.length = 32 then POut.ok receipt
              else POut.err ("failed to convert to 32 bytes array")
          else POut.err ("failed to decode tx siganture")
  | ChainSupported.Bnb =>
    match tx.signed_call_payload with
    | none => POut.err ("sender did not signed the tx payload")
    | some signature =>
      match tx.call_payload with
      | none => POut.err ("call payload not found")
      | some tx_payload =>
        match rlpDecodeEip7702 tx_payload with
        | none => POut.err ("failed to decode eth EIP7702 tx payload")
        | some decoded_tx =>
          if signature.length = 65 then
            match o.bnbSendRawTransaction (encode_with_signature decoded_tx signature) with
            | Except.error _ => POut.err ("failed to submit eth raw tx")
            | Except.ok receipt =>
              if receipt.length = 32 then POut.ok receipt
              else POut.err ("failed to convert to 32 bytes array")
          else POut.err ("failed to decode tx siganture")

/-- Little-endian fixed-width bytes of a natural (`k` bytes). -/
def natLE (k : Nat) (n : Nat) : Bytes :=
  (List.range k).map (fun i => n / 256 ^ i % 256)

/-- Value of a little-endian byte string. -/
def leToNat (l : Bytes) : Nat :=
  List.foldr (fun b a => a * 256 + b) 0 l

/-- SCALE compact length encoding (single-byte, two-byte, four-byte and
big-integer modes). -/
def compactEnc (n : Nat) : Bytes :=
  if n < 64 then [n * 4]
  else if n < 16384 then [(n * 4 + 1) % 256, (n * 4 + 1) / 256]
  else if n < 1073741824 then natLE 4 (n * 4 + 2)
  else
    let b := natBytesBE n
    ((b.length - 4) * 4 + 3) :: b.reverse

/-- SCALE compact length decoding. -/
def compactDec : Bytes → Option (Nat × Bytes)
  | [] => none
  | x :: rest =>
    if x % 4 = 0 then some (x / 4, rest)
    else if x % 4 = 1 then
      match rest with
      | y :: r2 => some ((x + y * 256) / 4, r2)
      | [] => none
    else if x % 4 = 2 then
      match takeN 3 rest with
      | some (ys, r2) => some ((x + 256 * leToNat ys) / 4, r2)
      | none => none
    else
      match takeN (x / 4 + 4) rest with
      | some (ys, r2) => some (leToNat ys, r2)
      | none => none

/-- SCALE encoding of a string: compact byte length then the bytes. -/
def scaleString (s : String) : Bytes :=
  compactEnc (strBytes s).length ++ strBytes s

/-- SCALE encoding of a byte vector: compact length then the bytes. -/
def scaleBytes (b : Bytes) : Bytes :=
  compactEnc b.length ++ b

/-- SCALE encoding of an optional byte vector. -/
def scaleOptBytes : Option Bytes → Bytes
  | none => [0]
  | some b => 1 :: scaleBytes b

/-- SCALE encoding of an optional u64. -/
def scaleOptU64 : Option Nat → Bytes
  | none => [0]
  | some n => 1 :: natLE 8 n

/-- SCALE encoding of an optional 32-byte hash (raw bytes, no length). -/
def scaleOptH256 : Option Bytes → Bytes
  | none => [0]
  | some h => 1 :: h

/-- Modelled from the spec: the network enum's wire indices follow the §3
listing order {Ethereum, Bnb, Solana, Polkadot}; the codec derive lives in the
`primitives` crate, not under `src/`. -/
def networkIndex : ChainSupported → Nat
  | ChainSupported.Ethereum => 0
  | ChainSupported.Bnb => 1
  | ChainSupported.Solana => 2
  | ChainSupported.Polkadot => 3

/-- Inverse of `networkIndex`. -/
def networkOfIndex : Nat → Option ChainSupported
  | 0 => some ChainSupported.Ethereum
  | 1 => some ChainSupported.Bnb
  | 2 => some ChainSupported.Solana
  | 3 => some ChainSupported.Polkadot
  | _ => none

/-- Modelled from the spec: the status enum's wire indices follow the §3
listing order; the codec derive lives in the `primitives` crate, not under
`src/`. -/
def statusIndex : TxStatus → Nat
  | TxStatus.Genesis => 0
  | TxStatus.ReceiverConfirmation => 1
  | TxStatus.RecvAddrConfirmed => 2
  | TxStatus.RecvAddrFailed => 3
  | TxStatus.NetConfirmed => 4
  | TxStatus.SenderConfirmed => 5
  | TxStatus.SenderConfirmationFailed => 6
  | TxStatus.TxSubmissionPassed => 7
  | TxStatus.TxSubmissionFailed => 8

/-- Inverse of `statusIndex`. -/
def statusOfIndex : Nat → Option TxStatus
  | 0 => some TxStatus.Genesis
  | 1 => some TxStatus.ReceiverConfirmation
  | 2 => some TxStatus.RecvAddrConfirmed
  | 3 => some TxStatus.RecvAddrFailed
  | 4 => some TxStatus.NetConfirmed
  | 5 => some TxStatus.SenderConfirmed
  | 6 => some TxStatus.SenderConfirmationFailed
  | 7 => some TxStatus.TxSubmissionPassed
  | 8 => some TxStatus.TxSubmissionFailed
  | _ => none

/-- Modelled from the spec: the canonical wire encoding of a `TxStateMachine`
("a deterministic length-prefixed scalar codec", §4.3 / §6), over the §3 field
list in listing order; the `Encode` derive lives in the `primitives` crate,
not under `src/`. -/
def scaleEncodeTx (tx : TxStateMachine) : Bytes :=
  scaleString tx.sender_address ++ scaleString tx.receiver_address ++
  tx.multi_id ++ [networkIndex tx.network] ++ natLE 16 tx.amount ++
  scaleOptBytes tx.call_payload ++ scaleOptBytes tx.signed_call_payload ++
  scaleOptBytes tx.recv_signature ++ [statusIndex tx.status] ++
  scaleOptU64 tx.inbound_req_id ++ scaleOptU64 tx.outbound_req_id ++
  scaleOptH256 tx.tx_hash

/-- String reconstructed from wire bytes (codepoints, inverse of `strBytes`
on the ASCII strings in use). -/
def bytesStr (b : Bytes) : String :=
  String.mk (b.map Char.ofNat)

/-- SCALE decoding of a string. -/
def scaleDecString (l : Bytes) : Option (String × Bytes) := do
  let (n, r1) ← compactDec l
  let (b, r2) ← takeN n r1
  some (bytesStr b, r2)

/-- SCALE decoding of a byte vector. -/
def scaleDecBytes (l : Bytes) : Option (Bytes × Bytes) := do
  let (n, r1) ← compactDec l
  takeN n r1

/-- SCALE decoding of an optional byte vector. -/
def scaleDecOptBytes : Bytes → Option (Option Bytes × Bytes)
  | 0 :: r => some (none, r)
  | 1 :: r => (scaleDecBytes r).map (fun p => (some p.1, p.2))
  | _ => none

/-- SCALE decoding of an optional u64. -/
def scaleDecOptU64 : Bytes → Option (Option Nat × Bytes)
  | 0 :: r => some (none, r)
  | 1 :: r => (takeN 8 r).map (fun p => (some (leToNat p.1), p.2))
  | _ => none

/-- SCALE decoding of an optional 32-byte hash. -/
def scaleDecOptH256 : Bytes → Option (Option Bytes × Bytes)
  | 0 :: r => some (none, r)
  | 1 :: r => (takeN 32 r).map (fun p => (some p.1, p.2))
  | _ => none

/-- Modelled from the spec: `Decode` for `TxStateMachine` over the wire bytes,
the inverse direction of `scaleEncodeTx`; fails on malformed input.  Trailing
bytes are tolerated as in parity-scale-codec's `Decode::decode` on a slice. -/
def scaleDecodeTx (l : Bytes) : Option TxStateMachine := do
  let (sender_address, r1) ← scaleDecString l
  let (receiver_address, r2) ← scaleDecString r1
  let (multi_id, r3) ← takeN 32 r2
  let (netB, r4) ← takeN 1 r3
  let network ← networkOfIndex (netB.headD 0)
  let (amtB, r5) ← takeN 16 r4
  let (call_payload, r6) ← scaleDecOptBytes r5
  let (signed_call_payload, r7) ← scaleDecOptBytes r6
  let (recv_signature, r8) ← scaleDecOptBytes r7
  let (stB, r9) ← takeN 1 r8
  let status ← statusOfIndex (stB.headD 0)
  let (inbound_req_id, r10) ← scaleDecOptU64 r9
  let (outbound_req_id, r11) ← scaleDecOptU64 r10
  let (tx_hash, _r12) ← scaleDecOptH256 r11
  some { sender_address := sender_address, receiver_address := receiver_address,
         multi_id := multi_id, network := network, amount := leToNat amtB,
         call_payload := call_payload, signed_call_payload := signed_call_payload,
         recv_signature := recv_signature, status := status,
         inbound_req_id := inbound_req_id, outbound_req_id := outbound_req_id,
         tx_hash := tx_hash }

/-- An inbound swarm event surfaced by `P2pWorker::start_swarm`: a
request or a response carrying raw wire bytes and the messaging-layer id. -/
inductive SwarmMessage
  | request (data : Bytes) (inbound_id : Nat)
  | response (data : Bytes) (outbound_id : Nat)
  deriving DecidableEq

/-- Result of one orchestrator handler invocation: the control-flow outcome
together with the observable effects already performed, in order. -/
abbrev HandlerResult := POut Unit × List Effect

/-- Embedding of the per-message body of
`MainServiceWorker::handle_swarm_event_messages` (`node/src/lib.rs` lines
151–226).  A request is decoded (`expect`: decode failure panics), given the
64-bit hash of its inbound id, and forwarded out the RPC channel.  A response
is decoded likewise, given the hash of its outbound id, then receiver-side
signature validation decides between the confirmed advance and the failed
advance plus a persisted failure record; both paths forward the updated object
out the RPC channel.  A panic inside validation escapes the `if let Ok`. -/
def handle_swarm_event_msg (o : Externals) (msg : SwarmMessage) : HandlerResult :=
  match msg with
  | SwarmMessage.request data inbound_id =>
    match scaleDecodeTx data with
    | none => (POut.panicked ("failed to decode request body"), [])
    | some decoded_req =>
      let d := { decoded_req with inbound_req_id := some (o.defaultHash64 inbound_id) }
      (POut.ok (), [Effect.rpcSend d])
  | SwarmMessage.response data outbound_id =>
    match scaleDecodeTx data with
    | none => (POut.panicked ("failed to decode request body"), [])
    | some decoded_resp =>
      let d := { decoded_resp with outbound_req_id := some (o.defaultHash64 outbound_id) }
      match validate_receiver_sender_address o d ("Receiver") with
      | POut.ok _ =>
        (POut.ok (), [Effect.rpcSend d.recv_confirmation_passed])
      | POut.err _ =>
        let d2 := d.recv_confirmation_failed
        (POut.ok (),
          [Effect.dbRecordFailedTx
             { tx_hash := [], amount := d2.amount, network := d2.network, success := false },
           Effect.rpcSend d2])
      | POut.panicked m => (POut.panicked m, [])

/-- A row of the local `saved_peers` table as returned by
`DbWorker::get_saved_user_peers` (fields used by the Genesis handler). -/
structure SavedAcc where
  node_id : String
  multi_addr : String
  deriving DecidableEq

/-- A remote-directory entry as returned by `Airtable::list_all_peers`; the
peer id and multiaddress are optional in the remote schema and the Genesis
handler unwraps them (panicking when absent). -/
structure Discovery where
  account_ids : List String
  peer_id : Option String
  multi_addr : Option String
  deriving DecidableEq

/-- Embedding of `MainServiceWorker::handle_genesis_tx_state`
(`node/src/lib.rs` lines 232–359).  The local lookup result and the remote
directory listing are passed in explicitly.  On a local hit: parse, dial, send
the request.  On a local miss: when the remote listing is non-empty, search it
for an entry announcing the receiver address; on a hit, write it through to the
local store, dial and send; on a miss, log the operational warning.  When the
remote listing is empty nothing happens at all.  The transaction object itself
is never modified. -/
def handle_genesis_tx_state (o : Externals) (txn : TxStateMachine)
    (localRes : Except String SavedAcc) (remote : List Discovery) : HandlerResult :=
  let target_id := txn.receiver_address
  match localRes with
  | Except.ok acc =>
    match o.parseMultiaddr acc.multi_addr with
    | none => (POut.err ("failed to parse multi addr"), [])
    | some multi_addr =>
      match o.parsePeerId acc.node_id with
      | none => (POut.err ("failed to parse peer id"), [])
      | some peer_id =>
        match o.dial multi_addr peer_id with
        | Except.error e => (POut.err e, [])
        | Except.ok _ =>
          match o.sendRequest peer_id multi_addr with
          | Except.error e => (POut.err e, [Effect.p2pDial multi_addr peer_id])
          | Except.ok _ =>
            (POut.ok (),
              [Effect.p2pDial multi_addr peer_id,
               Effect.p2pSendRequest txn peer_id multi_addr])
  | Except.error _ =>
    if remote.isEmpty then (POut.ok (), [])
    else
      let result_peer := remote.findSome? (fun discovery =>
        if discovery.account_ids.contains target_id then
          some (discovery.peer_id, discovery.multi_addr, discovery)
        else none)
      match result_peer with
      | none => (POut.ok (), [Effect.logWarnPeerNotFound])
      | some (peerIdOpt, multiAddrOpt, _rec) =>
        match multiAddrOpt with
        | none => (POut.panicked ("called Option::unwrap on a None value"), [])
        | some multiAddrStr =>
          match o.parseMultiaddr multiAddrStr with
          | none => (POut.err ("failed to parse multi addr"), [])
          | some multi_addr =>
            match peerIdOpt with
            | none => (POut.panicked ("failed to parse peerId"), [])
            | some peerIdStr =>
              match o.parsePeerId peerIdStr with
              | none => (POut.err ("failed to parse peer id"), [])
              | some peer_id =>
                let saveEffect := Effect.dbSavePeer peerIdStr multiAddrStr
                match o.dial multi_addr peer_id with
                | Except.error e => (POut.err e, [saveEffect])
                | Except.ok _ =>
                  match o.sendRequest peer_id multi_addr with
                  | Except.error e =>
                    (POut.err e, [saveEffect, Effect.p2pDial multi_addr peer_id])
                  | Except.ok _ =>
                    (POut.ok (),
                      [saveEffect, Effect.p2pDial multi_addr peer_id,
                       Effect.p2pSendRequest txn peer_id multi_addr])

/-- Embedding of `MainServiceWorker::handle_sender_confirmed_tx_state`
(`node/src/lib.rs` lines 376–469).  Branch A (`signed_call_payload` present):
validate the sender signature; on success submit, then either record the
passed submission (set hash, emit, persist success) or the failed one (emit);
on validation failure advance to SenderConfirmationFailed and emit, with no
submission.  Branch B (`signed_call_payload` absent): on a multi-id mismatch
persist a failure record and emit (the status field is left untouched);
otherwise construct the unsigned transaction and emit it. -/
def handle_sender_confirmed_tx_state (o : Externals) (txn_inner : TxStateMachine) :
    HandlerResult :=
  match txn_inner.signed_call_payload with
  | some _ =>
    match validate_receiver_sender_address o txn_inner ("Sender") with
    | POut.ok _ =>
      match submit_tx o txn_inner with
      | POut.ok tx_hash =>
        let t := txn_inner.tx_submission_passed tx_hash
        (POut.ok (),
          [Effect.chainSubmit txn_inner,
           Effect.rpcSend t,
           Effect.dbRecordSuccessTx
             { tx_hash := tx_hash, amount := txn_inner.amount,
               network := txn_inner.network, success := true }])
      | POut.err e =>
        let t := txn_inner.tx_submission_failed (e ++ (": the tx will be resubmitted rest assured"))
        (POut.ok (), [Effect.chainSubmit txn_inner, Effect.rpcSend t])
      | POut.panicked m => (POut.panicked m, [Effect.chainSubmit txn_inner])
    | POut.err _ =>
      (POut.ok (), [Effect.rpcSend txn_inner.sender_confirmation_failed])
    | POut.panicked m => (POut.panicked m, [])
  | none =>
    if validate_multi_id o txn_inner = false then
      (POut.ok (),
        [Effect.dbRecordFailedTx
           { tx_hash := [], amount := txn_inner.amount,
             network := txn_inner.network, success := false },
         Effect.rpcSend txn_inner])
    else
      match create_tx txn_inner with
      | POut.ok t => (POut.ok (), [Effect.rpcSend t])
      | POut.err e => (POut.err e, [])
      | POut.panicked m => (POut.panicked m, [])

/-!  Concrete instantiations used to evaluate the embedding. -/

/-- A small concrete external world: the strings "R" and "S" parse to the
one-byte ECDSA keys `[2]` and `[1]`, every well-formed signature verifies, and
recovery always yields `[2]` (the key of "R"); the chain clients accept every
submission and answer with the 32-byte hash `7·32`. -/
def testExternals : Externals where
  ecdsaPubFromStr := fun s =>
    if s = ("R") then some [2] else if s = ("S") then some [1] else none
  keccak_256 := fun b => 11 :: b
  ecdsaSigFromSlice := fun b => some b
  ecdsaVerify := fun _ _ _ => true
  ecdsaRecover := fun _ _ => some [2]
  edPubFromStr := fun _ => none
  edSigFromSlice := fun _ => none
  edVerify := fun _ _ _ => false
  blake2_256 := fun _ => List.replicate 32 0
  defaultHash64 := fun n => n + 1
  ethSendRawTransaction := fun _ => Except.ok (List.replicate 32 7)
  bnbSendRawTransaction := fun _ => Except.ok (List.replicate 32 7)
  parseMultiaddr := fun s => some s
  parsePeerId := fun s => some s
  dial := fun _ _ => Except.ok ()
  sendRequest := fun _ _ => Except.ok ()

/-- Base transaction fixture: sender "S", receiver "R", Ethereum, amount 1000,
no signatures yet, at SenderConfirmed; its `multi_id` matches
`testExternals.blake2_256`. -/
def baseTx : TxStateMachine where
  sender_address := "S"
  receiver_address := "R"
  multi_id := List.replicate 32 0
  network := ChainSupported.Ethereum
  amount := 1000
  call_payload := none
  signed_call_payload := none
  recv_signature := none
  status := TxStatus.SenderConfirmed
  inbound_req_id := none
  outbound_req_id := none
  tx_hash := none

/-- A concrete unsigned EIP-7702 envelope used to exercise the RLP codec and
the submission path. -/
def sampleEnvelope : TxEip7702 where
  chain_id := 0
  nonce := 0
  gas_limit := 21000
  max_fee_per_gas := 100
  max_priority_fee_per_gas := 2
  to_addr := List.replicate 20 1
  value := 1000
  input := []

/-- Sender-confirmed transaction carrying a signature over the call payload. -/
def c1Tx : TxStateMachine := { baseTx with signed_call_payload := some [9] }

/-- A Polkadot response transaction whose receiver signature is present. -/
def c2PolkadotTx : TxStateMachine :=
  { baseTx with network := ChainSupported.Polkadot, recv_signature := some [5],
                status := TxStatus.ReceiverConfirmation }

/-- An Ethereum response transaction whose receiver signature is present. -/
def c2OkTx : TxStateMachine :=
  { baseTx with recv_signature := some [5], status := TxStatus.ReceiverConfirmation }

/-- Sender-confirmed transaction without a signature whose stored `multi_id`
differs from the recomputed binding hash. -/
def c3Tx : TxStateMachine := { baseTx with multi_id := List.replicate 32 1 }

/-- Sender-confirmed transaction whose receiver address parses to no ECDSA
key, so sender-side signature validation fails with an error. -/
def c4Tx : TxStateMachine :=
  { baseTx with receiver_address := "X", signed_call_payload := some [9] }

/-- A Polkadot transaction with both signatures present. -/
def c6Tx : TxStateMachine :=
  { baseTx with network := ChainSupported.Polkadot, recv_signature := some [5],
                signed_call_payload := some [9] }

/-- Sender-confirmed transaction ready to submit: a 65-byte signature and a
well-formed RLP call payload. -/
def c7Tx : TxStateMachine :=
  { baseTx with signed_call_payload := some (List.replicate 65 9),
                call_payload := some (rlpEncodeEip7702 sampleEnvelope) }

/-- Ethereum transaction whose receiver address is the chain-native 42-byte
hex string. -/
def c8HexTx : TxStateMachine :=
  { baseTx with receiver_address := "0x742d35Cc6634C0532925a3b844Bc454e4438f44e" }

/-- Ethereum transaction whose receiver address happens to be exactly 20
bytes long. -/
def c8TwentyTx : TxStateMachine :=
  { baseTx with receiver_address := "01234567890123456789" }

/-- Bnb twin of `c8TwentyTx`. -/
def c8BnbTx : TxStateMachine := { c8TwentyTx with network := ChainSupported.Bnb }

/-- A Genesis transaction. -/
def c9Tx : TxStateMachine := { baseTx with status := TxStatus.Genesis }

/-- A remote-directory entry that does not announce `c9Tx`'s receiver. -/
def c9Disc : Discovery where
  account_ids := ["A"]
  peer_id := some ("p")
  multi_addr := some ("m")

/-!  Theorems. -/

/-- Helper: whatever the network and the external world, `submit_tx` can only
succeed with the 32-byte hash that survived the `try_into` conversion. -/
theorem submit_tx_ok_length (o : Externals) (tx : TxStateMachine) (h : Bytes)
    (hs : submit_tx o tx = POut.ok h) : h.length = 32 := by
  unfold submit_tx at hs
  repeat' (split at hs)
  all_goals (try cases hs)
  all_goals simp_all

/-- Helper: `findSome?` yields nothing when the function yields nothing on
every element. -/
theorem findSome?_none_of_forall {α β : Type} (f : α → Option β) :
    ∀ l : List α, (∀ a ∈ l, f a = none) → l.findSome? f = none := by
  intro l
  induction l with
  | nil => intro _; rfl
  | cons a t ih =>
    intro hf
    rw [List.findSome?_cons, hf a (List.mem_cons_self a t)]
    exact ih (fun x hx => hf x (List.mem_cons_of_mem a hx))

/-- C1: the claim says sender-role verification succeeds only when the
recovered key strictly equals the key derived from `sender_address`.  The code
instead parses the claimed key from `tx.receiver_address` in the Sender role
too, so a signature recovering to the receiver's key is accepted even though
it differs from the key derived from the sender's address: at the concrete
input below, validation succeeds while the recovered key is not the key of
`sender_address`. -/
theorem c1_sender_role_validates_against_receiver_key :
    validate_receiver_sender_address testExternals c1Tx ("Sender") = POut.ok () ∧
    testExternals.ecdsaRecover [9] (testExternals.keccak_256 (strBytes c1Tx.sender_address)) ≠
      testExternals.ecdsaPubFromStr c1Tx.sender_address := by
  constructor
  · decide
  · decide

set_option maxRecDepth 10000 in
/-- C2 (counterexample): a decodable Response carrying a Polkadot transaction
with a present receiver signature makes the handler panic in the unimplemented
Polkadot validation arm — the status is not advanced to RecvAddrConfirmed or
RecvAddrFailed, no failure record is appended, and nothing is forwarded out
the RPC channel, contradicting the claim's "in both cases the updated object
is forwarded". -/
theorem c2_polkadot_response_panics_no_forward :
    handle_swarm_event_msg testExternals
        (SwarmMessage.response (scaleEncodeTx c2PolkadotTx) 0) =
      (POut.panicked ("not yet implemented"), []) := by
  decide

/-- C2 (amended): for every inbound Response whose bytes decode to a
transaction, when receiver-side validation of the id-stamped object returns
success the handler forwards exactly the object advanced to RecvAddrConfirmed,
and when validation returns an error it appends the failure record
(empty hash, amount, network, success=false) to the history and forwards the
object advanced to RecvAddrFailed; the unimplemented-network panic is the only
excluded outcome. -/
theorem c2_response_routing_on_validation (o : Externals) (data : Bytes)
    (outbound_id : Nat) (tx : TxStateMachine) (hdec : scaleDecodeTx data = some tx) :
    (validate_receiver_sender_address o
        { tx with outbound_req_id := some (o.defaultHash64 outbound_id) } ("Receiver") = POut.ok () →
      handle_swarm_event_msg o (SwarmMessage.response data outbound_id) =
        (POut.ok (),
          [Effect.rpcSend
            ({ tx with outbound_req_id := some (o.defaultHash64 outbound_id) }).recv_confirmation_passed])) ∧
    (∀ e, validate_receiver_sender_address o
        { tx with outbound_req_id := some (o.defaultHash64 outbound_id) } ("Receiver") = POut.err e →
      handle_swarm_event_msg o (SwarmMessage.response data outbound_id) =
        (POut.ok (),
          [Effect.dbRecordFailedTx
             { tx_hash := [], amount := tx.amount, network := tx.network, success := false },
           Effect.rpcSend
             ({ tx with outbound_req_id := some (o.defaultHash64 outbound_id) }).recv_confirmation_failed])) := by
  constructor
  · intro hval
    simp only [handle_swarm_event_msg, hdec]
    simp [hval]
  · intro e hval
    simp only [handle_swarm_event_msg, hdec]
    simp [hval, TxStateMachine.recv_confirmation_failed]

set_option maxRecDepth 10000 in
/-- C2 (witness): the routing theorem evaluated on a concrete decodable
response that validates successfully. -/
theorem c2_response_routing_on_validation_witness :
    handle_swarm_event_msg testExternals (SwarmMessage.response (scaleEncodeTx c2OkTx) 3) =
      (POut.ok (),
        [Effect.rpcSend
          ({ c2OkTx with outbound_req_id := some (testExternals.defaultHash64 3) }).recv_confirmation_passed]) :=
  (c2_response_routing_on_validation testExternals (scaleEncodeTx c2OkTx) 3 c2OkTx
    (by decide)).1 (by decide)

/-- C3 (counterexample): on a multi-id mismatch the handler appends the
failure record and emits the object, but the emitted object's status is still
SenderConfirmed — no advance to a terminal failure status happens,
contradicting the claim. -/
theorem c3_multi_id_mismatch_does_not_advance_status :
    handle_sender_confirmed_tx_state testExternals c3Tx =
      (POut.ok (),
        [Effect.dbRecordFailedTx
           { tx_hash := [], amount := 1000, network := ChainSupported.Ethereum, success := false },
         Effect.rpcSend c3Tx]) ∧
    c3Tx.status = TxStatus.SenderConfirmed := by
  constructor
  · decide
  · decide

/-- C3 (amended): for every transaction at the SenderConfirmed handler with
`signed_call_payload` absent and a multi-id mismatch, a failure record
(empty hash, amount, network, success=false) is appended to the persisted
history and the object is emitted out the RPC channel unchanged — in
particular its status is left as it was, not advanced to a failure terminal. -/
theorem c3_multi_id_mismatch_records_failure_and_emits (o : Externals)
    (txn : TxStateMachine) (hs : txn.signed_call_payload = none)
    (hm : validate_multi_id o txn = false) :
    handle_sender_confirmed_tx_state o txn =
      (POut.ok (),
        [Effect.dbRecordFailedTx
           { tx_hash := [], amount := txn.amount, network := txn.network, success := false },
         Effect.rpcSend txn]) := by
  unfold handle_sender_confirmed_tx_state
  rw [hs]
  simp [hm]

/-- C3 (witness): the amended theorem evaluated on the concrete mismatching
transaction. -/
theorem c3_multi_id_mismatch_records_failure_and_emits_witness :
    handle_sender_confirmed_tx_state testExternals c3Tx =
      (POut.ok (),
        [Effect.dbRecordFailedTx
           { tx_hash := [], amount := c3Tx.amount, network := c3Tx.network, success := false },
         Effect.rpcSend c3Tx]) :=
  c3_multi_id_mismatch_records_failure_and_emits testExternals c3Tx (by decide) (by decide)

/-- C4: for every transaction at the SenderConfirmed handler with
`signed_call_payload` present whose sender-side validation returns an error,
the handler emits exactly the object advanced to SenderConfirmationFailed and
stops — in particular chain submission is never invoked. -/
theorem c4_invalid_sender_signature_stops_without_broadcast (o : Externals)
    (txn : TxStateMachine) (p : Bytes) (e : String)
    (hp : txn.signed_call_payload = some p)
    (hval : validate_receiver_sender_address o txn ("Sender") = POut.err e) :
    handle_sender_confirmed_tx_state o txn =
      (POut.ok (), [Effect.rpcSend txn.sender_confirmation_failed]) ∧
    ∀ t, Effect.chainSubmit t ∉ (handle_sender_confirmed_tx_state o txn).2 := by
  have h1 : handle_sender_confirmed_tx_state o txn =
      (POut.ok (), [Effect.rpcSend txn.sender_confirmation_failed]) := by
    unfold handle_sender_confirmed_tx_state
    rw [hp]
    simp [hval]
  refine ⟨h1, ?_⟩
  intro t
  rw [h1]
  simp

/-- C4 (witness): the theorem evaluated on a concrete transaction whose
receiver address parses to no key, so validation errors. -/
theorem c4_invalid_sender_signature_stops_without_broadcast_witness :
    handle_sender_confirmed_tx_state testExternals c4Tx =
      (POut.ok (), [Effect.rpcSend c4Tx.sender_confirmation_failed]) :=
  (c4_invalid_sender_signature_stops_without_broadcast testExternals c4Tx [9]
    ("failed to convert ecdsa recv addr bytes") (by decide) (by decide)).1

/-- C5: the claim says a swarm event with malformed bytes is dropped with a
log entry and without a panic.  The code decodes with `.expect`, so on
malformed data (here: empty byte strings, which no length-prefixed encoding of
a TxStateMachine can produce) both the Request and the Response arms panic
with "failed to decode request body" and nothing is forwarded. -/
theorem c5_malformed_swarm_event_panics :
    handle_swarm_event_msg testExternals (SwarmMessage.request [] 0) =
      (POut.panicked ("failed to decode request body"), []) ∧
    handle_swarm_event_msg testExternals (SwarmMessage.response [] 0) =
      (POut.panicked ("failed to decode request body"), []) := by
  constructor
  · decide
  · decide

/-- C6: for every Polkadot transaction, no chain-processing operation ever
succeeds: signature verification never returns success for any role (when the
respective signature is present it hits the `todo!()` panic, whose message is
"not yet implemented"), and unsigned-transaction construction and broadcast
are the "not yet implemented" failure unconditionally. -/
theorem c6_polkadot_operations_not_implemented (o : Externals)
    (tx : TxStateMachine) (h : tx.network = ChainSupported.Polkadot) :
    (∀ who u, validate_receiver_sender_address o tx who ≠ POut.ok u) ∧
    (∀ s, tx.recv_signature = some s →
       validate_receiver_sender_address o tx ("Receiver") = POut.panicked ("not yet implemented")) ∧
    (∀ s, tx.signed_call_payload = some s →
       validate_receiver_sender_address o tx ("Sender") = POut.panicked ("not yet implemented")) ∧
    create_tx tx = POut.panicked ("not yet implemented") ∧
    submit_tx o tx = POut.panicked ("not yet implemented") := by
  refine ⟨?_, ?_, ?_, ?_, ?_⟩
  · intro who u
    unfold validate_receiver_sender_address
    by_cases hw : who = ("Receiver") <;> simp [hw]
    · cases hrs : tx.recv_signature <;> simp [hrs, h]
    · cases hsp : tx.signed_call_payload <;> simp [hsp, h]
  · intro s hrs
    unfold validate_receiver_sender_address
    simp [hrs, h]
  · intro s hsp
    unfold validate_receiver_sender_address
    simp [hsp, h]
  · unfold create_tx
    simp [h]
  · unfold submit_tx
    simp [h]

/-- C6 (witness): the theorem evaluated on a concrete Polkadot transaction
with both signatures present. -/
theorem c6_polkadot_operations_not_implemented_witness :
    validate_receiver_sender_address testExternals c6Tx ("Receiver") =
      POut.panicked ("not yet implemented") ∧
    create_tx c6Tx = POut.panicked ("not yet implemented") ∧
    submit_tx testExternals c6Tx = POut.panicked ("not yet implemented") := by
  have h := c6_polkadot_operations_not_implemented testExternals c6Tx (by decide)
  exact ⟨h.2.1 [5] (by decide), h.2.2.2.1, h.2.2.2.2⟩

/-- C7: for every transaction at the SenderConfirmed handler with
`signed_call_payload` present, a validating sender signature and a succeeding
chain submission, the returned hash has 32 bytes and the handler invokes the
submission, emits the object with `tx_hash` set and status TxSubmissionPassed,
and appends the success record (hash, amount, network, success=true) to the
persisted history. -/
theorem c7_successful_submission_sets_hash_and_records_success (o : Externals)
    (txn : TxStateMachine) (p h : Bytes)
    (hp : txn.signed_call_payload = some p)
    (hval : validate_receiver_sender_address o txn ("Sender") = POut.ok ())
    (hsub : submit_tx o txn = POut.ok h) :
    h.length = 32 ∧
    handle_sender_confirmed_tx_state o txn =
      (POut.ok (),
        [Effect.chainSubmit txn,
         Effect.rpcSend (txn.tx_submission_passed h),
         Effect.dbRecordSuccessTx
           { tx_hash := h, amount := txn.amount, network := txn.network, success := true }]) := by
  refine ⟨submit_tx_ok_length o txn h hsub, ?_⟩
  unfold handle_sender_confirmed_tx_state
  rw [hp]
  simp [hval, hsub]

set_option maxRecDepth 10000 in
/-- C7 (witness): the theorem evaluated on a concrete ready-to-submit
transaction against the accepting external world. -/
theorem c7_successful_submission_sets_hash_and_records_success_witness :
    handle_sender_confirmed_tx_state testExternals c7Tx =
      (POut.ok (),
        [Effect.chainSubmit c7Tx,
         Effect.rpcSend (c7Tx.tx_submission_passed (List.replicate 32 7)),
         Effect.dbRecordSuccessTx
           { tx_hash := List.replicate 32 7, amount := c7Tx.amount,
             network := c7Tx.network, success := true }]) :=
  (c7_successful_submission_sets_hash_and_records_success testExternals c7Tx
    (List.replicate 65 9) (List.replicate 32 7) (by decide) (by decide) (by decide)).2

/-- C8: the claim says Ethereum/Bnb construction returns the object with
`call_payload` set to the encoded envelope.  It cannot: with the chain-native
42-byte hex receiver address `Address::from_slice` panics (wrong slice
length), and even with a 20-byte address the builder request carries neither
nonce, gas limit nor fee fields, so alloy's `build_unsigned` refuses it and
`create_tx` returns the "cannot build unsigned tx" error — on both networks
`call_payload` is never produced. -/
theorem c8_create_tx_fails_on_ethereum_and_bnb :
    create_tx c8HexTx =
      POut.panicked ("Address::from_slice called with slice of wrong length") ∧
    create_tx c8TwentyTx = POut.err ("cannot build unsigned tx to be signed by EOA") ∧
    create_tx c8BnbTx = POut.err ("cannot build unsigned tx to be signed by EOA") := by
  refine ⟨?_, ?_, ?_⟩
  · decide
  · decide
  · decide

/-- C9 (counterexample): with the receiver resolved by neither store and an
empty remote directory, the Genesis handler emits nothing at all — not even
the operational warning the claim promises. -/
theorem c9_empty_remote_directory_emits_no_warning :
    handle_genesis_tx_state testExternals c9Tx (Except.error ("record not found")) [] =
      (POut.ok (), []) := by
  decide

/-- C9 (amended): for every Genesis transaction whose receiver address is in
neither the local store (lookup errors) nor the remote directory listing, the
handler performs no dial, sends no request and leaves the transaction
untouched; the operational warning is emitted exactly when the remote listing
is non-empty (an empty listing produces no effect at all). -/
theorem c9_unresolved_receiver_no_dial_no_warning_when_empty (o : Externals)
    (txn : TxStateMachine) (e : String) (remote : List Discovery)
    (hmiss : ∀ d ∈ remote, txn.receiver_address ∉ d.account_ids) :
    handle_genesis_tx_state o txn (Except.error e) remote =
      (POut.ok (), if remote.isEmpty then [] else [Effect.logWarnPeerNotFound]) := by
  have hfs : (List.findSome? (fun discovery =>
      if txn.receiver_address ∈ discovery.account_ids then
        some (discovery.peer_id, discovery.multi_addr, discovery) else none) remote) = none := by
    apply findSome?_none_of_forall
    intro d hd
    exact if_neg (hmiss d hd)
  unfold handle_genesis_tx_state
  by_cases hr : remote.isEmpty
  · simp [hr]
  · simp [hr]
    rw [hfs]

/-- C9 (witness): the amended theorem evaluated on a concrete miss against a
non-empty remote directory, yielding exactly the warning. -/
theorem c9_unresolved_receiver_no_dial_no_warning_when_empty_witness :
    handle_genesis_tx_state testExternals c9Tx
        (Except.error ("record not found")) [c9Disc] =
      (POut.ok (), [Effect.logWarnPeerNotFound]) := by
  have h := c9_unresolved_receiver_no_dial_no_warning_when_empty testExternals c9Tx
    ("record not found") [c9Disc] (by decide)
  simpa using h

/-- C10: for every external world and transaction, Receiver-role validation
with `recv_signature` absent and Sender-role validation with
`signed_call_payload` absent both return the missing-signature error — they
neither succeed nor panic, because the check precedes the network dispatch
(even for Polkadot, whose dispatch arm panics). -/
theorem c10_missing_signature_error_before_network_dispatch (o : Externals)
    (tx : TxStateMachine) :
    (tx.recv_signature = none →
       validate_receiver_sender_address o tx ("Receiver") = POut.err ("receiver didnt signed")) ∧
    (tx.signed_call_payload = none →
       validate_receiver_sender_address o tx ("Sender") = POut.err ("original sender didnt signed")) := by
  constructor <;> intro hn <;> unfold validate_receiver_sender_address <;> simp [hn]

/-- C10 (witness): the theorem evaluated on a concrete Polkadot transaction
with both signatures absent (the strongest case: the network arm would
panic if dispatch were reached). -/
theorem c10_missing_signature_error_before_network_dispatch_witness :
    validate_receiver_sender_address testExternals
        { baseTx with network := ChainSupported.Polkadot } ("Receiver") =
      POut.err ("receiver didnt signed") ∧
    validate_receiver_sender_address testExternals
        { baseTx with network := ChainSupported.Polkadot } ("Sender") =
      POut.err ("original sender didnt signed") :=
  ⟨(c10_missing_signature_error_before_network_dispatch testExternals
      { baseTx with network := ChainSupported.Polkadot }).1 (by decide),
   (c10_missing_signature_error_before_network_dispatch testExternals
      { baseTx with network := ChainSupported.Polkadot }).2 (by decide)⟩

end Vane
